import Mathlib

/-!
Shallow embedding of the `et_presidio` repository.

Source files embedded:
* `presidio_flask_estbert.py` — `EstBERTRecognizer.analyze` (the span
  normalizer and recognizer adapter) and `validate_config`.
* `app.py` — the `/analyze` and `/anonymize` request handlers of
  `EstonianPresidioFlaskServer`: entity-set resolution, result
  serialization, operator-map construction and error responses.

The black-box HuggingFace NER pipeline and the YAML file reading are passed
in as explicit function / `Except` arguments; a raised Python exception is
modelled as the `.error` branch of an `Except`.
-/

set_option maxRecDepth 10000

/-- A raw labeled span as produced by the HF token-classification pipeline
with `aggregation_strategy="simple"`: the dict
`{'entity_group': …, 'start': …, 'end': …, 'score': …}` read by
`EstBERTRecognizer.analyze` (lines 58–71 of `presidio_flask_estbert.py`). -/
structure RawEntity where
  entity_group : String
  start : Nat
  end_ : Nat
  score : ℚ
  deriving DecidableEq

/-- `presidio_analyzer.RecognizerResult` as constructed at lines 67–72 of
`presidio_flask_estbert.py`. -/
structure RecognizerResult where
  entity_type : String
  start : Nat
  end_ : Nat
  score : ℚ
  deriving DecidableEq

/-- `EstBERTRecognizer.label_mapping` (lines 42–46 of
`presidio_flask_estbert.py`). -/
def label_mapping : List (String × String) :=
  [("PER", "PERSON"), ("ORG", "ORGANIZATION"), ("LOC", "LOCATION")]

/-- First-match association-list lookup, modelling Python `dict` lookup
(`dict.get(k)`). -/
def alistLookup {α : Type} : List (String × α) → String → Option α
  | [], _ => none
  | p :: rest, k => if p.1 = k then some p.2 else alistLookup rest k

/-- Python `str.replace(ab, '')` for a two-character pattern `ab`: every
non-overlapping occurrence is removed, scanning left to right. -/
def replaceDrop2 (a b : Char) : List Char → List Char
  | [] => []
  | [c] => [c]
  | c1 :: c2 :: rest =>
    if c1 = a ∧ c2 = b then replaceDrop2 a b rest
    else c1 :: replaceDrop2 a b (c2 :: rest)

/-- Whether the two-character pattern `ab` occurs anywhere in the string. -/
def hasTag (a b : Char) : List Char → Bool
  | [] => false
  | [_] => false
  | c1 :: c2 :: rest => (c1 == a && c2 == b) || hasTag a b (c2 :: rest)

/-- Line 60 of `presidio_flask_estbert.py`:
`entity['entity_group'].replace('B-', '').replace('I-', '')`. -/
def extractEntityType (label : String) : String :=
  String.mk (replaceDrop2 'I' '-' (replaceDrop2 'B' '-' label.toList))

/-- The result-building loop of `EstBERTRecognizer.analyze`
(lines 58–73 of `presidio_flask_estbert.py`): strip the positional tag,
map through `label_mapping` with the raw stripped label as fallback, keep
the span iff the mapped type is truthy (non-empty) and a member of the
requested `entities`. -/
def analyzeLoop : List RawEntity → List String → List RecognizerResult
  | [], _ => []
  | e :: rest, entities =>
    let entity_type := extractEntityType e.entity_group
    let presidio_entity := (alistLookup label_mapping entity_type).getD entity_type
    if presidio_entity ≠ "" ∧ presidio_entity ∈ entities then
      ⟨presidio_entity, e.start, e.end_, e.score⟩ :: analyzeLoop rest entities
    else
      analyzeLoop rest entities

/-- `EstBERTRecognizer.analyze` (lines 48–78 of `presidio_flask_estbert.py`).
The pipeline call `self.nlp_pipeline(text)` is the explicit argument
`nlp_pipeline`; a raised exception is its `.error` outcome, caught by the
surrounding `try/except`, which leaves `results = []`. -/
def analyze (nlp_pipeline : String → Except String (List RawEntity))
    (text : String) (entities : List String) : List RecognizerResult :=
  match nlp_pipeline text with
  | .error _ => []
  | .ok ner_results => analyzeLoop ner_results entities

/-- Claim C1 counterexample: a raw span labelled `B-PER` — whose stripped
and mapped type is the valid `PERSON` — is NOT retained when the requested
entity set is empty: `analyze` returns the empty list, because line 65
tests `presidio_entity in entities`, which is false for an empty list. -/
theorem C1_counterexample :
    analyze (fun _ => .ok [⟨"B-PER", 0, 9, 1⟩]) "Jaan Tamm" [] = [] := by
  decide

/-- The filter loop retains nothing when the requested entity set is empty. -/
theorem analyzeLoop_nil_entities (l : List RawEntity) : analyzeLoop l [] = [] := by
  induction l with
  | nil => rfl
  | cons e rest ih => simpa [analyzeLoop] using ih

/-- Claim C1, amended: an empty requested entity set in
`EstBERTRecognizer.analyze` rejects every span (the membership filter
`presidio_entity in entities` admits nothing), rather than accepting all
mapped types. -/
theorem C1_empty_entities_rejects_all
    (p : String → Except String (List RawEntity)) (text : String) :
    analyze p text [] = [] := by
  unfold analyze
  cases p text with
  | error e => rfl
  | ok l => exact analyzeLoop_nil_entities l

/-- Claim C3: if the underlying model invocation raises (the pipeline's
`.error` outcome), `EstBERTRecognizer.analyze` returns the empty span list
for every input text and requested entity set; the exception never
propagates (the embedding of `analyze` is a total function). -/
theorem C3_model_failure_returns_empty
    (p : String → Except String (List RawEntity)) (text : String)
    (entities : List String) (e : String) (h : p text = .error e) :
    analyze p text entities = [] := by
  unfold analyze
  rw [h]

/-- Witness for C3 at a concrete failing pipeline. -/
theorem C3_witness :
    analyze (fun _ => .error "model failure") "Jaan" ["PERSON"] = [] :=
  C3_model_failure_returns_empty _ "Jaan" ["PERSON"] "model failure" rfl

/-- Claim C9: two calls of `EstBERTRecognizer.analyze` with identical text
and identical requested entity set yield identical span lists, provided the
underlying pipeline is a deterministic function of the text (the two runs
agree pointwise). -/
theorem C9_two_run_determinism
    (p1 p2 : String → Except String (List RawEntity))
    (text : String) (entities : List String)
    (hdet : ∀ t, p1 t = p2 t) :
    analyze p1 text entities = analyze p2 text entities := by
  unfold analyze
  rw [hdet]

/-- Witness for C9 at two concrete pointwise-equal pipelines. -/
theorem C9_witness :
    analyze (fun _ => Except.ok [(⟨"B-PER", 0, 4, 1⟩ : RawEntity)]) "Jaan" ["PERSON"] =
      analyze (fun _ => Except.ok ([] ++ [(⟨"B-PER", 0, 4, 1⟩ : RawEntity)])) "Jaan" ["PERSON"] :=
  C9_two_run_determinism _ _ "Jaan" ["PERSON"] (fun _ => rfl)

/-- Eliminator matching the two-step recursion pattern of `replaceDrop2`
and `hasTag`. -/
def twoStepRec {motive : List Char → Prop} (h0 : motive [])
    (h1 : ∀ c, motive [c])
    (h2 : ∀ c1 c2 rest, motive rest → motive (c2 :: rest) →
      motive (c1 :: c2 :: rest)) :
    ∀ s, motive s
  | [] => h0
  | [c] => h1 c
  | c1 :: c2 :: rest =>
    h2 c1 c2 rest (twoStepRec h0 h1 h2 rest) (twoStepRec h0 h1 h2 (c2 :: rest))

/-- A string without the pattern is left unchanged by the removal pass. -/
theorem replaceDrop2_id_of_no_tag (a b : Char) (s : List Char) :
    hasTag a b s = false → replaceDrop2 a b s = s := by
  induction s using twoStepRec with
  | h0 => intro _; rfl
  | h1 c => intro _; rfl
  | h2 c1 c2 rest ih1 ih2 =>
    intro h
    simp only [hasTag, Bool.or_eq_false_iff, Bool.and_eq_false_iff,
      beq_eq_false_iff_ne, ne_eq] at h
    have hcond : ¬(c1 = a ∧ c2 = b) := by
      rcases h.1 with h1a | h2b
      · exact fun hc => h1a hc.1
      · exact fun hc => h2b hc.2
    simp only [replaceDrop2, if_neg hcond]
    rw [ih2 h.2]

/-- Claim C2, amended: the normalizer of `EstBERTRecognizer.analyze` strips
every occurrence of the substrings `B-` (first pass) and `I-` (second pass)
anywhere in the raw label, not only a leading positional prefix; a label
containing neither pattern is looked up exactly as-is, and a stripped label
absent from `label_mapping` passes through unchanged as the span's entity
type rather than being dropped at the mapping step (witnessed by the span
surviving the filter when its own raw type is requested). The conjunct
`extractEntityType "XB-Y" = "XY"` exhibits the stripping of a non-leading
occurrence. -/
theorem C2_strip_and_passthrough :
    (∀ l : String, hasTag 'B' '-' l.toList = false →
      hasTag 'I' '-' l.toList = false → extractEntityType l = l)
    ∧ (∀ e : RawEntity,
        alistLookup label_mapping (extractEntityType e.entity_group) = none →
        extractEntityType e.entity_group ≠ "" →
        analyzeLoop [e] [extractEntityType e.entity_group] =
          [⟨extractEntityType e.entity_group, e.start, e.end_, e.score⟩])
    ∧ extractEntityType "XB-Y" = "XY" := by
  refine ⟨fun l hB hI => ?_, fun e hlook hne => ?_, by decide⟩
  · unfold extractEntityType
    rw [replaceDrop2_id_of_no_tag _ _ _ hB, replaceDrop2_id_of_no_tag _ _ _ hI]
    rfl
  · simp [analyzeLoop, hlook, hne]

/-- Witness for C2: the prefix-free label `PER` is looked up as-is, and the
unmapped label `FOO` passes through as the entity type and survives the
filter when `FOO` itself is requested. -/
theorem C2_witness :
    extractEntityType "PER" = "PER"
    ∧ analyzeLoop [⟨"FOO", 0, 3, 1⟩] [extractEntityType "FOO"] =
        [⟨extractEntityType "FOO", 0, 3, 1⟩] :=
  ⟨C2_strip_and_passthrough.1 "PER" (by decide) (by decide),
   C2_strip_and_passthrough.2.1 ⟨"FOO", 0, 3, 1⟩ (by decide) (by decide)⟩

/-- Claim C2 counterexample: the raw label `LB-OC` has no leading `B-` or
`I-` prefix, so per the claim it would be looked up as-is, miss the mapping
and yield entity type `LB-OC`; the code instead removes the interior `B-`,
obtains `LOC` and maps it to `LOCATION`. -/
theorem C2_counterexample :
    analyzeLoop [⟨"LB-OC", 0, 5, 1⟩] ["LOCATION", "LB-OC"] =
      [⟨"LOCATION", 0, 5, 1⟩] := by
  decide

/-- `required_sections` of `validate_config` (lines 121–125 of
`presidio_flask_estbert.py`). -/
def required_sections : List String :=
  ["supported_languages", "nlp_configuration", "estbert_configuration"]

/-- The section-checking loop of `validate_config` (lines 127–131): the
first missing section short-circuits with its message; otherwise the file
is declared valid. The parsed config is represented by its list of
top-level keys — the only thing the loop inspects (`section not in config`). -/
def checkSections : List String → List String → Bool × String
  | [], _ => (true, "Configuration is valid")
  | s :: rest, keys =>
    if s ∈ keys then checkSections rest keys
    else (false, "Missing required section: " ++ s)

/-- `validate_config` (lines 112–134 of `presidio_flask_estbert.py`).
Opening and YAML-parsing the file is passed in as an `Except` whose
`.error` branch is any raised exception (missing file, malformed syntax),
caught by the surrounding `try/except` at line 133. The embedding is a
total function: no outcome ever propagates an exception. -/
def validate_config (parsed : Except String (List String)) : Bool × String :=
  match parsed with
  | .error e => (false, "Configuration error: " ++ e)
  | .ok keys => checkSections required_sections keys

/-- Claim C4 helper: all sections present means success. -/
theorem checkSections_all_present (secs keys : List String)
    (h : ∀ s ∈ secs, s ∈ keys) :
    checkSections secs keys = (true, "Configuration is valid") := by
  induction secs with
  | nil => rfl
  | cons s rest ih =>
    rw [checkSections, if_pos (h s (List.mem_cons_self s rest))]
    exact ih fun x hx => h x (List.mem_cons_of_mem s hx)

/-- Claim C4 helper: a missing section yields failure, with the message
naming a missing section. -/
theorem checkSections_missing (secs keys : List String)
    (h : ∃ s ∈ secs, s ∉ keys) :
    (checkSections secs keys).1 = false ∧
      ∃ s ∈ secs, s ∉ keys ∧
        (checkSections secs keys).2 = "Missing required section: " ++ s := by
  induction secs with
  | nil => rcases h with ⟨s, hs, _⟩; exact absurd hs (List.not_mem_nil s)
  | cons s rest ih =>
    by_cases hmem : s ∈ keys
    · rw [checkSections, if_pos hmem]
      have hrest : ∃ x ∈ rest, x ∉ keys := by
        rcases h with ⟨x, hx, hxk⟩
        rcases List.mem_cons.mp hx with hxs | hxr
        · exact absurd (hxs ▸ hmem) hxk
        · exact ⟨x, hxr, hxk⟩
      rcases ih hrest with ⟨h1, x, hx, hxk, h2⟩
      exact ⟨h1, x, List.mem_cons_of_mem s hx, hxk, h2⟩
    · rw [checkSections, if_neg hmem]
      exact ⟨rfl, s, List.mem_cons_self s rest, hmem, rfl⟩

/-- Claim C4: `validate_config` returns `(False, message)` with the message
naming a missing required section whenever one of the three required
top-level sections is absent; returns `(True, …)` when all three are
present; and a raised read/parse exception (the `.error` branch) is
reported through the pair — the total embedding never propagates it. -/
theorem C4_validate_config_spec :
    (∀ keys : List String, (∃ s ∈ required_sections, s ∉ keys) →
      (validate_config (.ok keys)).1 = false ∧
        ∃ s ∈ required_sections, s ∉ keys ∧
          (validate_config (.ok keys)).2 = "Missing required section: " ++ s)
    ∧ (∀ keys : List String, (∀ s ∈ required_sections, s ∈ keys) →
        validate_config (.ok keys) = (true, "Configuration is valid"))
    ∧ ∀ e : String, validate_config (.error e) =
        (false, "Configuration error: " ++ e) :=
  ⟨fun keys h => checkSections_missing required_sections keys h,
   fun keys h => checkSections_all_present required_sections keys h,
   fun _ => rfl⟩

/-- Witness for C4: a file with only `supported_languages` fails, a file
with all three sections passes, and a read error is reported in the pair. -/
theorem C4_witness :
    (validate_config (.ok ["supported_languages"])).1 = false
    ∧ validate_config
        (.ok ["supported_languages", "nlp_configuration", "estbert_configuration"]) =
        (true, "Configuration is valid")
    ∧ validate_config (.error "No such file or directory") =
        (false, "Configuration error: " ++ "No such file or directory") :=
  ⟨(C4_validate_config_spec.1 ["supported_languages"]
      ⟨"nlp_configuration", by decide, by decide⟩).1,
   C4_validate_config_spec.2.1 _ (by decide),
   C4_validate_config_spec.2.2 "No such file or directory"⟩

/-- A JSON-ish parameter value in an anonymization operator's `params`
dict (`app.py` lines 241–248). -/
inductive ParamVal where
  | str (s : String)
  | int (n : Int)
  | bool (b : Bool)
  deriving DecidableEq

/-- `presidio_anonymizer.entities.OperatorConfig(operator_name, params)` as
constructed at lines 252 and 257 of `app.py`. -/
structure OperatorConfig where
  operator_name : String
  params : List (String × ParamVal)
  deriving DecidableEq

/-- A per-request anonymizer entry: the dict value of the request's
`anonymizers` map, with the keys read at lines 240–248 of `app.py`
(`type`, `new_value`, `masking_char`, `chars_to_mask`, `from_end`);
absent keys are `none`. -/
structure AnonymizerSpec where
  type_ : Option String
  new_value : Option String
  masking_char : Option String
  chars_to_mask : Option Int
  from_end : Option Bool
  deriving DecidableEq

/-- Lines 240–252 of `app.py`: build one `OperatorConfig` from a request
anonymizer entry. `redact` and unrecognized types keep empty params. -/
def buildOperatorFromSpec (entity_type : String) (c : AnonymizerSpec) :
    OperatorConfig :=
  let operator_type := c.type_.getD "replace"
  if operator_type = "replace" then
    ⟨operator_type,
      [("new_value", ParamVal.str (c.new_value.getD ("<" ++ entity_type ++ ">")))]⟩
  else if operator_type = "mask" then
    ⟨operator_type,
      [("masking_char", ParamVal.str (c.masking_char.getD "*")),
       ("chars_to_mask", ParamVal.int (c.chars_to_mask.getD 4)),
       ("from_end", ParamVal.bool (c.from_end.getD true))]⟩
  else
    ⟨operator_type, []⟩

/-- Lines 236–257 of `app.py`: the operators map handed to
`AnonymizerEngine.anonymize`. `if anonymizers:` is Python truthiness — the
request map is used exactly when present and non-empty, and ONLY then;
otherwise (absent or empty) the map is built from the configuration's
`anonymization_config.default_operators` as `replace` directives. -/
def buildOperators (anonymizers : Option (List (String × AnonymizerSpec)))
    (default_operators : List (String × String)) :
    List (String × OperatorConfig) :=
  if (anonymizers.getD []) ≠ [] then
    (anonymizers.getD []).map (fun p => (p.1, buildOperatorFromSpec p.1 p.2))
  else
    default_operators.map
      (fun p => (p.1, OperatorConfig.mk "replace" [("new_value", ParamVal.str p.2)]))

/-- Modelled from the spec's words (claim C5), for comparison with
`buildOperators`: the claimed per-span three-level directive resolution —
first the per-request override map, else the configuration's
default-operator map, else the angle-bracket fallback. -/
def resolveDirectiveClaimed (anonymizers : List (String × AnonymizerSpec))
    (default_operators : List (String × String)) (entity_type : String) :
    OperatorConfig :=
  match alistLookup anonymizers entity_type with
  | some c => buildOperatorFromSpec entity_type c
  | none =>
    match alistLookup default_operators entity_type with
    | some v => ⟨"replace", [("new_value", ParamVal.str v)]⟩
    | none => ⟨"replace", [("new_value", ParamVal.str ("<" ++ entity_type ++ ">"))]⟩

/-- Lookup over a key-preserving map of an association list. -/
theorem alistLookup_mapPair {α β : Type} (f : String → α → β)
    (l : List (String × α)) (k : String) :
    alistLookup (l.map fun p => (p.1, f p.1 p.2)) k =
      (alistLookup l k).map (f k) := by
  induction l with
  | nil => rfl
  | cons p rest ih =>
    by_cases hk : p.1 = k
    · simp [alistLookup, hk]
    · simp [alistLookup, hk, ih]

/-- Lookup misses when no key matches. -/
theorem alistLookup_eq_none {α : Type} (l : List (String × α)) (k : String)
    (h : ∀ p ∈ l, p.1 ≠ k) : alistLookup l k = none := by
  induction l with
  | nil => rfl
  | cons p rest ih =>
    rw [alistLookup, if_neg (h p (List.mem_cons_self p rest))]
    exact ih fun x hx => h x (List.mem_cons_of_mem p hx)

/-- Claim C5 counterexample: with a non-empty per-request override map
that lacks `LOCATION` and a configuration default map that has it, the
code's operators map contains NO directive for `LOCATION` (the config
default is never consulted), while the claimed three-level resolution
yields the config's `[ASUKOHT]` replace directive. -/
theorem C5_counterexample :
    alistLookup
        (buildOperators
          (some [("PERSON", ⟨some "replace", some "[ISIK]", none, none, none⟩)])
          [("LOCATION", "[ASUKOHT]")]) "LOCATION" = none
    ∧ resolveDirectiveClaimed
        [("PERSON", ⟨some "replace", some "[ISIK]", none, none, none⟩)]
        [("LOCATION", "[ASUKOHT]")] "LOCATION" =
        ⟨"replace", [("new_value", ParamVal.str "[ASUKOHT]")]⟩ := by
  decide

/-- Claim C5, amended: the `/anonymize` handler resolves the operator map
per request, not per span. When the request's `anonymizers` map is
non-empty it is used exclusively — an entity type absent from it resolves
to no directive at all (left to the external engine's default), even when
the configuration's default-operator map contains it. The configuration
map is used only when the request map is absent or empty (both are the
same falsy branch). The angle-bracket fallback exists only inside a
request-supplied `replace` entry lacking `new_value`. -/
theorem C5_operator_map_resolution :
    (∀ (req : List (String × AnonymizerSpec)) (cfg : List (String × String))
        (et : String), req ≠ [] → (∀ p ∈ req, p.1 ≠ et) →
      alistLookup (buildOperators (some req) cfg) et = none)
    ∧ (∀ cfg : List (String × String),
        buildOperators (some []) cfg = buildOperators none cfg)
    ∧ (∀ (cfg : List (String × String)) (et v : String),
        alistLookup cfg et = some v →
        alistLookup (buildOperators none cfg) et =
          some ⟨"replace", [("new_value", ParamVal.str v)]⟩)
    ∧ ∀ et : String,
        buildOperatorFromSpec et ⟨some "replace", none, none, none, none⟩ =
          ⟨"replace", [("new_value", ParamVal.str ("<" ++ et ++ ">"))]⟩ := by
  refine ⟨fun req cfg et hne hmiss => ?_, fun cfg => rfl,
    fun cfg et v hv => ?_, fun et => rfl⟩
  · rw [buildOperators, if_pos (by simpa using hne)]
    simp only [Option.getD_some]
    rw [alistLookup_mapPair (fun k s => buildOperatorFromSpec k s) req et,
      alistLookup_eq_none req et hmiss]
    rfl
  · rw [buildOperators, if_neg (by simp),
      alistLookup_mapPair
        (fun k s => OperatorConfig.mk "replace" [("new_value", ParamVal.str s)]) cfg et,
      hv]
    rfl

/-- Witness for C5 at concrete request and configuration maps. -/
theorem C5_witness :
    alistLookup
        (buildOperators (some [("PERSON", ⟨none, none, none, none, none⟩)]) [])
        "LOCATION" = none
    ∧ alistLookup (buildOperators none [("LOCATION", "[ASUKOHT]")]) "LOCATION" =
        some ⟨"replace", [("new_value", ParamVal.str "[ASUKOHT]")]⟩ :=
  ⟨C5_operator_map_resolution.1 [("PERSON", ⟨none, none, none, none, none⟩)] []
      "LOCATION" (by decide) (by decide),
   C5_operator_map_resolution.2.2.1 [("LOCATION", "[ASUKOHT]")] "LOCATION"
      "[ASUKOHT]" (by decide)⟩

/-- A JSON value as emitted by the `/analyze` handler's result
serialization, distinguishing numbers from strings. -/
inductive JsonVal where
  | num (q : ℚ)
  | int (n : Int)
  | str (s : String)
  deriving DecidableEq

/-- Whether a JSON value is a number. -/
def jsonIsNumber : JsonVal → Bool
  | JsonVal.num _ => true
  | JsonVal.int _ => true
  | JsonVal.str _ => false

/-- Lines 163–168 of `app.py`: one element of `results_json`. Note line
167: `"score": str(result.score)` stringifies the score. The two optional
fields (`analysis_explanation`, `recognition_metadata`) are absent here,
matching results whose attributes are unset. -/
def resultToJson (r : RecognizerResult) : List (String × JsonVal) :=
  [("entity_type", JsonVal.str r.entity_type),
   ("start", JsonVal.int r.start),
   ("end", JsonVal.int r.end_),
   ("score", JsonVal.str (toString r.score))]

/-- Lines 161–178 of `app.py`: the `results` array of a successful
`/analyze` response. -/
def results_json (analyzer_results : List RecognizerResult) :
    List (List (String × JsonVal)) :=
  analyzer_results.map resultToJson

/-- The score field of a serialized result is its stringified score. -/
theorem resultToJson_score (r : RecognizerResult) :
    alistLookup (resultToJson r) "score" =
      some (JsonVal.str (toString r.score)) := rfl

/-- Claim C6 counterexample: a successful `/analyze` result entry for a
PERSON span with score 1 carries a `score` field that is NOT a JSON
number — line 167 of `app.py` serializes `str(result.score)`. -/
theorem C6_counterexample :
    (alistLookup (resultToJson ⟨"PERSON", 0, 9, 1⟩) "score").map jsonIsNumber =
      some false := by
  decide

/-- Claim C6, amended: every result entry in a successful `/analyze`
response carries a `score` field holding the string representation of the
corresponding analyzer score (a JSON string, not a number); positionally,
the serialized score fields are exactly the stringified scores of the
analyzer results. -/
theorem C6_score_serialized_as_string :
    (∀ rs : List RecognizerResult,
      (results_json rs).map (fun j => alistLookup j "score") =
        rs.map (fun r => some (JsonVal.str (toString r.score))))
    ∧ ∀ (rs : List RecognizerResult) (j : List (String × JsonVal)),
        j ∈ results_json rs →
        (alistLookup j "score").map jsonIsNumber = some false := by
  constructor
  · intro rs
    induction rs with
    | nil => rfl
    | cons r rest ih =>
      simp only [results_json, List.map_cons, resultToJson_score, List.map_map] at ih ⊢
      rw [ih]
  · intro rs j hj
    rcases List.mem_map.mp hj with ⟨r, _, rfl⟩
    rw [resultToJson_score]
    rfl

/-- Witness for C6 at a concrete result list. -/
theorem C6_witness :
    (alistLookup (resultToJson ⟨"PERSON", 0, 9, 1⟩) "score").map jsonIsNumber =
      some false :=
  C6_score_serialized_as_string.2 [⟨"PERSON", 0, 9, 1⟩]
    (resultToJson ⟨"PERSON", 0, 9, 1⟩) (by simp [results_json])

/-- Line 149 of `app.py`: the hard-coded `/analyze` default entity list
(eleven categories). -/
def analyzeDefaultEntities : List String :=
  ["PERSON", "LOCATION", "ORGANIZATION", "PHONE_NUMBER", "EMAIL_ADDRESS",
   "URL", "IP_ADDRESS", "IBAN_CODE", "DATE_TIME", "CRYPTO", "CREDIT_CARD"]

/-- Lines 223–226 of `app.py`: the hard-coded `/anonymize` default entity
list (eight categories). -/
def anonymizeDefaultEntities : List String :=
  ["PERSON", "ORGANIZATION", "LOCATION", "DATE_TIME",
   "EMAIL_ADDRESS", "PHONE_NUMBER", "URL", "IP_ADDRESS"]

/-- Python truthiness fallback `a or b` where `a` is `data.get("entities")`
(absent → `None`, both `None` and `[]` are falsy). -/
def pyOr (a : Option (List String)) (b : List String) : List String :=
  if (a.getD []) ≠ [] then a.getD [] else b

/-- Lines 148–149 of `app.py`: `entities_to_detect` in `/analyze`.
`config_entities` is `self.config.get('entities_to_detect')` — `none` when
the key is absent, in which case the hard-coded default applies. -/
def entities_to_detect_analyze (entities : Option (List String))
    (config_entities : Option (List String)) : List String :=
  pyOr entities (config_entities.getD analyzeDefaultEntities)

/-- Lines 222–226 of `app.py`: `entities_to_detect` in `/anonymize`. -/
def entities_to_detect_anonymize (entities : Option (List String))
    (config_entities : Option (List String)) : List String :=
  pyOr entities (config_entities.getD anonymizeDefaultEntities)

/-- Claim C7 counterexample: with the request `entities` and the
configuration `entities_to_detect` both unset, `/analyze` and `/anonymize`
resolve to DIFFERENT hard-coded defaults (eleven vs eight categories), not
the same documented default. -/
theorem C7_counterexample :
    entities_to_detect_analyze none none ≠
      entities_to_detect_anonymize none none := by
  decide

/-- Claim C7, amended: in both handlers the request's non-empty `entities`
override takes precedence over the configuration default, and a present
configuration `entities_to_detect` is used when the request leaves
`entities` unset; but when both are unset the two handlers fall back to
different hard-coded lists — `/analyze` to a fixed list of eleven common
PII categories and `/anonymize` to a fixed list of eight. -/
theorem C7_entity_set_resolution :
    (∀ (req : List String) (cfg : Option (List String)), req ≠ [] →
      entities_to_detect_analyze (some req) cfg = req ∧
        entities_to_detect_anonymize (some req) cfg = req)
    ∧ (∀ cfgv : List String,
        entities_to_detect_analyze none (some cfgv) = cfgv ∧
          entities_to_detect_anonymize none (some cfgv) = cfgv)
    ∧ entities_to_detect_analyze none none = analyzeDefaultEntities
    ∧ entities_to_detect_anonymize none none = anonymizeDefaultEntities
    ∧ analyzeDefaultEntities.length = 11
    ∧ anonymizeDefaultEntities.length = 8 := by
  refine ⟨fun req cfg hne => ?_, fun cfgv => ⟨rfl, rfl⟩, rfl, rfl, rfl, rfl⟩
  constructor <;>
    simp [entities_to_detect_analyze, entities_to_detect_anonymize, pyOr, hne]

/-- Witness for C7 at a concrete request override. -/
theorem C7_witness :
    entities_to_detect_analyze (some ["PERSON"]) none = ["PERSON"] ∧
      entities_to_detect_anonymize (some ["PERSON"]) none = ["PERSON"] :=
  C7_entity_set_resolution.1 ["PERSON"] none (by decide)

/-- Claim C10: a request whose `entities` field is present but an empty
list resolves exactly as a request with the field absent, in both the
`/analyze` and `/anonymize` handlers and for every configuration — the
handlers test the value for truthiness (`entities or …`), so an empty list
falls through to the configuration default or the hard-coded fallback and
does not mean "detect nothing". -/
theorem C10_empty_entities_like_absent :
    ∀ cfg : Option (List String),
      entities_to_detect_analyze (some []) cfg =
          entities_to_detect_analyze none cfg ∧
        entities_to_detect_anonymize (some []) cfg =
          entities_to_detect_anonymize none cfg :=
  fun cfg => ⟨rfl, rfl⟩

/-- The body of an `/analyze` HTTP response: either the success payload or
the `{"error": …}` object. -/
inductive AnalyzeResponseBody where
  | ok (results : List (List (String × JsonVal))) (text : String)
  | err (message : String)
  deriving DecidableEq

/-- Lines 151–188 of `app.py`: the `/analyze` route after request
validation. The analyzer call's outcome is the explicit `Except` argument;
its `.error` branch is the exception caught at line 185, which answers
HTTP 500 with `f"Analysis failed: {str(e)}"`. -/
def analyzeRoute (analyzerOutcome : Except String (List RecognizerResult))
    (text : String) : Nat × AnalyzeResponseBody :=
  match analyzerOutcome with
  | .ok rs => (200, AnalyzeResponseBody.ok (results_json rs) text)
  | .error e => (500, AnalyzeResponseBody.err ("Analysis failed: " ++ e))

/-- Lines 98–101 of `app.py`: the app-level generic exception handler. -/
def handle_generic_exception (error : String) : Nat × AnalyzeResponseBody :=
  (500, AnalyzeResponseBody.err "Internal server error")

/-- Claim C8 counterexample: an analysis failure with internal detail
`division by zero` is answered by the route's own except-branch with a 500
whose message embeds that detail verbatim — it is not the generic
message produced by `handle_generic_exception`. -/
theorem C8_counterexample :
    analyzeRoute (.error "division by zero") "tekst" =
        (500, AnalyzeResponseBody.err "Analysis failed: division by zero")
      ∧ (500, AnalyzeResponseBody.err "Analysis failed: division by zero") ≠
          handle_generic_exception "division by zero" := by
  decide

/-- Claim C8, amended: an analysis failure caught inside the `/analyze`
route returns HTTP 500 with a message that embeds the exception's text
(`"Analysis failed: " + str(e)`) — internal detail reaches the client;
only exceptions that escape a route handler reach the app-level
`handle_generic_exception`, which returns the generic 500
`"Internal server error"` for every exception. -/
theorem C8_error_responses :
    (∀ (e text : String), analyzeRoute (.error e) text =
      (500, AnalyzeResponseBody.err ("Analysis failed: " ++ e)))
    ∧ ∀ e : String, handle_generic_exception e =
        (500, AnalyzeResponseBody.err "Internal server error") :=
  ⟨fun e text => rfl, fun e => rfl⟩
